import Mathlib

/-!
Verification development for the runpod_simple deployment orchestrator.

Shallow embedding of the core logic:
* `select_optimal_gpu`   — GPU candidate ranking (src/gpu_filter.py)
* `deployNewPod`         — deployment attempt loop (src/cli.py, CLI._deploy_new_pod)
* `waitForRunning`       — readiness poller (src/pod_manager.py, PodManager.wait_for_running)
* `detect_local_ip`      — local address probing (src/ssh_tunnel.py, SSHTunnel.detect_local_ip)
* `start_tunnels`        — tunnel establishment (src/ssh_tunnel.py, SSHTunnel.start_tunnels)

Python floats used for prices are modelled as rationals (ℚ): the logic proved
here is purely order-theoretic (comparisons, sorting, inclusive bounds), on
which ℚ and IEEE doubles agree for the finite values the provider reports.
Python dicts are modelled as association lists or lookup functions, and
Python real time as explicit elapsed-time accounting.
-/

namespace Runpod

/-! ### String helpers (Python `in`, `startswith`, `str.lower`) -/

/-- Python `list/str` startswith on character lists. -/
def listStartsWith : List Char → List Char → Bool
  | [], _ => true
  | _ :: _, [] => false
  | a :: as, b :: bs => a == b && listStartsWith as bs

/-- Python `needle in hay` on character lists (contiguous substring). -/
def listContains (n : List Char) : List Char → Bool
  | [] => n.isEmpty
  | b :: bs => listStartsWith n (b :: bs) || listContains n bs

/-- Python `hay.startswith(needle)`. -/
def strStartsWith (needle hay : String) : Bool :=
  listStartsWith needle.data hay.data

/-- Python `needle in hay` (substring containment). -/
def strContains (needle hay : String) : Bool :=
  listContains needle.data hay.data

/-- Python `s.lower()` (ASCII-faithful). -/
def strLower (s : String) : String :=
  String.mk (s.data.map Char.toLower)

/-! ### Data model, from src/api_client.py

`GPUInfo` is modelled with the field shape `select_optimal_gpu` consumes:
`secure_price` is a plain float defaulted to `0.0` by the API layer
(`g.get("securePrice") or 0.0`), the community prices are optional floats and
`stock_status` an optional string. -/

structure GPUInfo where
  id : String
  display_name : String
  memory_in_gb : Nat
  secure_price : ℚ
  community_price : Option ℚ
  community_spot_price : Option ℚ
  stock_status : Option String
deriving Repr, DecidableEq

structure NetworkVolume where
  id : String
  name : String
  size : Nat
  data_center_id : Option String
deriving Repr, DecidableEq

/-- A candidate dict produced by `select_optimal_gpu` (src/gpu_filter.py). -/
structure Candidate where
  gpu_type_id : String
  gpu_count : Nat
  cost_per_hour : ℚ
  total_vram_gb : Nat
  display_name : String
  cost_per_gb_vram : ℚ
  is_available : Bool
  stock_status : Option String
deriving Repr, DecidableEq

/-! ### GPU candidate ranker, src/gpu_filter.py lines 52-141 -/

/-- Python truthiness of an optional float (`None` and `0.0` are falsy). -/
def optPriceTruthy : Option ℚ → Bool
  | none => false
  | some p => p != 0

/-- Price resolution of src/gpu_filter.py lines 70-77: secure price by default;
community on-demand / spot price when requested, falling back to the secure
price when the requested tier price is absent (falsy). -/
def effectivePrice (g : GPUInfo) (is_community is_spot : Bool) : ℚ :=
  if is_community then
    if is_spot then
      if optPriceTruthy g.community_spot_price then g.community_spot_price.getD 0
      else g.secure_price
    else
      if optPriceTruthy g.community_price then g.community_price.getD 0
      else g.secure_price
  else g.secure_price

/-- Candidate emission for a single GPU type (src/gpu_filter.py lines 65-109):
skip when the resolved price is falsy; emit a single-unit candidate when VRAM
suffices and at least one unit is available; emit a dual-unit candidate when a
single unit is insufficient but a pair suffices and two units are available. -/
def gpuCandidates (availability : String → Nat) (min_vram_gb : Nat)
    (is_community is_spot : Bool) (g : GPUInfo) : List Candidate :=
  let memory := g.memory_in_gb
  let avail_count := availability g.id
  let price := effectivePrice g is_community is_spot
  if price = 0 then []
  else
    (if min_vram_gb ≤ memory ∧ 1 ≤ avail_count then
      [{ gpu_type_id := g.id, gpu_count := 1, cost_per_hour := price,
         total_vram_gb := memory, display_name := g.display_name,
         cost_per_gb_vram := price / (memory : ℚ), is_available := true,
         stock_status := g.stock_status }]
     else []) ++
    (if memory < min_vram_gb ∧ min_vram_gb ≤ memory * 2 ∧ 2 ≤ avail_count then
      [{ gpu_type_id := g.id, gpu_count := 2, cost_per_hour := price * 2,
         total_vram_gb := memory * 2, display_name := g.display_name,
         cost_per_gb_vram := price / (memory : ℚ), is_available := true,
         stock_status := g.stock_status }]
     else [])

/-- Cost filter, src/gpu_filter.py lines 111-117 (inclusive bounds, applied
only when at least one bound is present). -/
def costFilter (min_cost max_cost : Option ℚ) (cands : List Candidate) : List Candidate :=
  if min_cost.isSome || max_cost.isSome then
    cands.filter (fun c =>
      (match min_cost with | none => true | some m => decide (m ≤ c.cost_per_hour)) &&
      (match max_cost with | none => true | some m => decide (c.cost_per_hour ≤ m)))
  else cands

/-- Dual-GPU filter, src/gpu_filter.py lines 119-121 (`allow_two_gpus is False`). -/
def dualFilter (allow_two_gpus : Option Bool) (cands : List Candidate) : List Candidate :=
  if allow_two_gpus = some false then cands.filter (fun c => c.gpu_count == 1)
  else cands

/-- Stock tier score, src/gpu_filter.py lines 130-134. -/
def stock_score : Option String → Nat
  | some "High" => 3
  | some "Medium" => 2
  | some "Low" => 1
  | _ => 0

/-- The sort order of src/gpu_filter.py line 139: ascending by cost, ties
broken by descending stock score (key `(cost, -stock_score)`). -/
def candLE (a b : Candidate) : Prop :=
  a.cost_per_hour < b.cost_per_hour ∨
    (a.cost_per_hour = b.cost_per_hour ∧ stock_score b.stock_status ≤ stock_score a.stock_status)

instance : DecidableRel candLE := fun a b => by
  unfold candLE; infer_instance

instance : IsTotal Candidate candLE := by
  constructor
  intro a b
  rcases lt_trichotomy a.cost_per_hour b.cost_per_hour with h | h | h
  · exact Or.inl (Or.inl h)
  · rcases le_total (stock_score b.stock_status) (stock_score a.stock_status) with hs | hs
    · exact Or.inl (Or.inr ⟨h, hs⟩)
    · exact Or.inr (Or.inr ⟨h.symm, hs⟩)
  · exact Or.inr (Or.inl h)

instance : IsTrans Candidate candLE := by
  constructor
  rintro a b c (hab | ⟨hab, sab⟩) (hbc | ⟨hbc, sbc⟩)
  · exact Or.inl (hab.trans hbc)
  · exact Or.inl (hbc ▸ hab)
  · exact Or.inl (hab ▸ hbc)
  · exact Or.inr ⟨hab.trans hbc, sbc.trans sab⟩

/-- Datacenter label, src/gpu_filter.py line 52
(`volume.data_center_id if volume and volume.data_center_id else "All regions"`). -/
def datacenterOf : Option NetworkVolume → String
  | some v =>
    match v.data_center_id with
    | some d => if d = "" then "All regions" else d
    | none => "All regions"
  | none => "All regions"

/-- The no-candidate error message, src/gpu_filter.py lines 124-127. -/
def noCandidateMsg (datacenter : String) : String :=
  "No available GPU configuration found matching criteria in " ++ datacenter ++
    ".\nTry checking another datacenter or lowering requirements."

/-- The ranking portion of `select_optimal_gpu` (src/gpu_filter.py lines
52-141): emit candidates per GPU type, apply the cost and dual-GPU filters,
fail when the list is empty, otherwise sort by `(cost, -stock_score)`.
Python's stable sort is modelled with insertion sort; the claims proved below
depend only on sortedness and membership, on which all sorts agree. -/
def select_optimal_gpu (volume : Option NetworkVolume) (gpu_types : List GPUInfo)
    (availability : String → Nat) (min_vram_gb : Nat)
    (min_cost max_cost : Option ℚ) (allow_two_gpus : Option Bool)
    (cloud_type : String) (is_spot : Bool) : Except String (List Candidate) :=
  let datacenter := datacenterOf volume
  let is_community := cloud_type == "COMMUNITY"
  let emitted := gpu_types.flatMap (gpuCandidates availability min_vram_gb is_community is_spot)
  let filtered := dualFilter allow_two_gpus (costFilter min_cost max_cost emitted)
  if filtered.isEmpty then .error (noCandidateMsg datacenter)
  else .ok (List.insertionSort candLE filtered)

/-! ### Pod snapshots, from src/api_client.py -/

/-- A pod snapshot (src/api_client.py `Pod`, fields the poller consumes).
The `portMappings` dict is modelled as an association list keyed by the
remote-port string. -/
structure Pod where
  id : String
  name : String
  status : String
  public_ip : Option String
  port_mappings : List (String × Nat)
deriving Repr, DecidableEq

/-- Python `"22" in pod.port_mappings` (dict key membership). -/
def podHasPort (p : Pod) (key : String) : Bool :=
  p.port_mappings.any (fun kv => kv.1 == key)

/-- `bool(pod.public_ip)`: `None` and the empty string are falsy. -/
def podHasIp (p : Pod) : Bool :=
  match p.public_ip with
  | none => false
  | some s => s != ""

/-- The readiness condition of src/pod_manager.py lines 107-115: status
`RUNNING`, a public IP present and remote port 22 mapped
(`bool(pod.port_mappings and "22" in pod.port_mappings)`). -/
def podReady (p : Pod) : Bool :=
  p.status == "RUNNING" && podHasIp p && (!p.port_mappings.isEmpty && podHasPort p "22")

/-- Terminal statuses, src/pod_manager.py line 127. -/
def podTerminal (p : Pod) : Bool :=
  p.status == "TERMINATED" || p.status == "EXITED"

/-! ### Deployment attempt loop, src/cli.py lines 263-293 -/

/-- Retryable provider failure, src/cli.py line 284:
`"no longer any instances available" in error_msg.lower() or "500" in error_msg`. -/
def isTransientError (msg : String) : Bool :=
  strContains "no longer any instances available" (strLower msg) || strContains "500" msg

def maxAttempts : Nat := 3

/-- One run of the `for attempt in range(max_attempts)` loop of
`CLI._deploy_new_pod` (src/cli.py lines 266-293). `outcome i` is the result of
the i-th `deploy_pod` call (`.ok` a pod, `.error` the `RuntimeError` message).
Returns the final result together with the trace of GPU configs `deploy_pod`
was invoked with, in order. The loop either breaks with a pod, re-raises, or —
only while `attempt < max_attempts - 1` and a further ranked candidate
exists — advances to the next candidate after a transient failure; the
empty-fuel case is unreachable because the final iteration never continues. -/
def deployGo (outcome : Nat → Except String Pod) (cands : List Candidate) :
    List Nat → Candidate → List Candidate → Except String Pod × List Candidate
  | [], _, trace => (.error "", trace)
  | attempt :: rest, cfg, trace =>
    let trace := trace ++ [cfg]
    match outcome attempt with
    | .ok pod => (.ok pod, trace)
    | .error msg =>
      if attempt < maxAttempts - 1 ∧ isTransientError msg = true ∧ attempt + 1 < cands.length then
        deployGo outcome cands rest (cands.getD (attempt + 1) cfg) trace
      else (.error msg, trace)

/-- `CLI._deploy_new_pod`'s retry loop, started at attempt 0 with the
initially selected GPU config. -/
def deployNewPod (outcome : Nat → Except String Pod) (cands : List Candidate)
    (cfg0 : Candidate) : Except String Pod × List Candidate :=
  deployGo outcome cands (List.range maxAttempts) cfg0 []

/-! ### Readiness poller, src/pod_manager.py lines 74-135 -/

/-- Outcome of `PodManager.wait_for_running`. -/
inductive PollResult where
  /-- The pod became ready; the returned snapshot. -/
  | ready (p : Pod)
  /-- `RuntimeError(f"Pod failed with status: {status}")`. -/
  | terminal (status : String)
  /-- `TimeoutError(f"Pod did not become ready within {timeout} seconds")`. -/
  | timeout (t : Nat)
deriving Repr, DecidableEq

/-- The timeout guard of src/pod_manager.py line 101:
`if timeout and (time.time() - start_time) > timeout`. Python truthiness makes
`timeout=0` behave exactly like `timeout=None`. -/
def timeoutFires (timeout : Option Nat) (elapsed : Nat) : Bool :=
  match timeout with
  | none => false
  | some t => t != 0 && t < elapsed

/-- poll interval, src/pod_manager.py line 84 (`check_interval = 5`). -/
def checkInterval : Nat := 5

/-- `PodManager.wait_for_running` (src/pod_manager.py lines 100-135), with
real time made explicit: `snaps i` is the i-th `get_pod` snapshot, `fetchDur i`
the wall-clock time consumed by the i-th fetch and its processing, `elapsed`
the time since `start_time` at the top of the iteration. Each non-returning
iteration sleeps `checkInterval`. `fuel` bounds the unrolling only; `none`
means the loop is still running after `fuel` iterations. The returned `Nat`
counts the status fetches performed. -/
def waitForRunning (snaps : Nat → Pod) (fetchDur : Nat → Nat) (timeout : Option Nat) :
    Nat → Nat → Nat → Option (PollResult × Nat)
  | 0, _, _ => none
  | fuel + 1, i, elapsed =>
    if timeoutFires timeout elapsed then some (.timeout (timeout.getD 0), i)
    else
      let pod := snaps i
      if podReady pod then some (.ready pod, i + 1)
      else if podTerminal pod then some (.terminal pod.status, i + 1)
      else waitForRunning snaps fetchDur timeout fuel (i + 1) (elapsed + fetchDur i + checkInterval)

/-- `wait_for_running` from the start of the loop. -/
def waitForRunningFrom (snaps : Nat → Pod) (fetchDur : Nat → Nat)
    (timeout : Option Nat) (fuel : Nat) : Option (PollResult × Nat) :=
  waitForRunning snaps fetchDur timeout fuel 0 0

/-! ### Local IP detection, src/ssh_tunnel.py lines 47-84 -/

/-- The environment `detect_local_ip` probes. `importError` is the
`netifaces` module being unavailable; `raisesOther` is any exception other
than `ImportError` escaping the probing calls (e.g. `ValueError` from
`netifaces.ifaddresses` on a vanished interface) — the code's
`except ImportError` does not catch those; `ok` is a successful probe listing
each interface with its IPv4 addresses (an absent `addr` key is the empty
string, matching `addr_info.get("addr", "")`). -/
inductive ProbeEnv where
  | importError
  | raisesOther (e : String)
  | ok (ifaces : List (String × List String))
deriving Repr, DecidableEq

/-- Interface-name skip list, src/ssh_tunnel.py line 57
(`any(skip in iface for skip in ["docker", "virbr", "veth", "lo", "br-"])`). -/
def skipIface (name : String) : Bool :=
  ["docker", "virbr", "veth", "lo", "br-"].any (fun s => strContains s name)

/-- Preference rank of src/ssh_tunnel.py lines 67-71. -/
def ipRank (ip : String) : Nat :=
  if strStartsWith "192.168." ip then 0
  else if strStartsWith "10." ip then 1
  else if strStartsWith "172." ip then 2
  else 3

/-- The candidate (ip, interface) pairs collected by `detect_local_ip`
(src/ssh_tunnel.py lines 54-65): skip virtual/loopback interfaces, keep
non-empty IPv4 addresses outside `127.*`. -/
def probeCandidates (ifaces : List (String × List String)) : List (String × String) :=
  ifaces.flatMap (fun iface =>
    if skipIface iface.1 then []
    else (iface.2.filter (fun ip => ip != "" && !strStartsWith "127." ip)).map
      (fun ip => (ip, iface.1)))

/-- `SSHTunnel.detect_local_ip` (src/ssh_tunnel.py lines 47-84): collect
non-loopback IPv4 addresses of non-virtual interfaces, sort by the private
address-range preference, return the best; fall back to `"localhost"` when the
probing library is missing or no candidate is found. An exception other than
`ImportError` propagates (`.error`). -/
def detect_local_ip : ProbeEnv → Except String String
  | .importError => .ok "localhost"
  | .raisesOther e => .error e
  | .ok ifaces =>
    match List.insertionSort (fun a b : String × String => ipRank a.1 ≤ ipRank b.1)
        (probeCandidates ifaces) with
    | c :: _ => .ok c.1
    | [] => .ok "localhost"

/-! ### Tunnel establishment, src/ssh_tunnel.py lines 199-314

The OS-level behaviour of one launch attempt is abstracted by
`LaunchBehavior`: whether the spawn call itself raises, whether the process is
still alive at the key-path check after `sleep(1)` inside
`_create_tunnel_with_key`, and whether it is still alive at the common check
after `sleep(2)` in `start_tunnels`. -/

structure LaunchBehavior where
  /-- `subprocess.Popen` / `pexpect.spawn` raises. -/
  spawnFails : Bool
  /-- key path only: `process.poll() is None` after the 1s settle inside
  `_create_tunnel_with_key`. -/
  aliveAfterSpawnCheck : Bool
  /-- `poll()` / `isalive()` after the 2s settle in `start_tunnels`. -/
  aliveAfterSettle : Bool
deriving Repr, DecidableEq

/-- Observable events of one `start_tunnels` run, in order. -/
inductive TEvent where
  /-- a transport process is launched for this bind address. -/
  | launch (bindAddr : String)
  /-- `stop_all()` is invoked. -/
  | cleanup
  /-- the run returns success with this bind address. -/
  | success (bindAddr : String)
deriving Repr, DecidableEq

structure TunnelResult where
  success : Bool
  message : String
  local_ip : String
deriving Repr, DecidableEq

/-- The two bind addresses tried, in order (src/ssh_tunnel.py line 214). -/
def bindAddrs : List String := ["0.0.0.0", "127.0.0.1"]

/-- `_create_tunnel_with_key` / `_create_tunnel_with_password`
(src/ssh_tunnel.py lines 122-167): the spawn may raise; the key path
additionally raises — before the caller registers the handle — when the
process already exited after the 1s settle. A returned handle is identified
by its bind address. -/
def launchTunnel (useKey : Bool) (b : LaunchBehavior) (bind : String) :
    Except String String :=
  if b.spawnFails then .error "Failed to create SSH tunnel"
  else if useKey && !b.aliveAfterSpawnCheck then
    .error "SSH process exited immediately"
  else .ok bind

def successMsgWide : String := "Tunnels created with network-wide access."

def successMsgLoopback : String :=
  "Tunnels created (localhost-only). Run with sudo for network access."

/-- The bind-address loop of `SSHTunnel.start_tunnels` (src/ssh_tunnel.py
lines 214-314): for each bind address, launch one transport covering all
specs; register the handle; after the settle, a dead process raises; any
exception in the body invokes `stop_all()` (clearing the registry) and
continues with the next bind address; success returns immediately with the
registry holding the one live handle. Exhausting both addresses returns
failure. The run returns (result, final process registry, event trace). -/
def startTunnelsGo (useKey : Bool) (behave : String → LaunchBehavior) (lip : String) :
    List String → List String → List TEvent →
    TunnelResult × List String × List TEvent
  | [], procs, events =>
    ({ success := false,
       message := "Failed to create tunnels. Check permissions and port availability.",
       local_ip := lip }, procs, events)
  | bind :: rest, procs, events =>
    let events1 := events ++ [TEvent.launch bind]
    match launchTunnel useKey (behave bind) bind with
    | .error _ =>
      startTunnelsGo useKey behave lip rest [] (events1 ++ [TEvent.cleanup])
    | .ok p =>
      let procs1 := procs ++ [p]
      if !(behave bind).aliveAfterSettle then
        startTunnelsGo useKey behave lip rest [] (events1 ++ [TEvent.cleanup])
      else
        ({ success := true,
           message := if bind == "127.0.0.1" then successMsgLoopback else successMsgWide,
           local_ip := lip }, procs1, events1 ++ [TEvent.success bind])

/-- `SSHTunnel.start_tunnels` (src/ssh_tunnel.py lines 199-314): detect the
display IP (a non-ImportError probing exception propagates), then try the two
bind addresses in order over an initially empty process registry. Port-in-use
warnings and table rendering are display-only and omitted. -/
def start_tunnels (useKey : Bool) (env : ProbeEnv) (behave : String → LaunchBehavior) :
    Except String (TunnelResult × List String × List TEvent) :=
  match detect_local_ip env with
  | .error e => .error e
  | .ok lip => .ok (startTunnelsGo useKey behave lip bindAddrs [] [])

/-! ## Helper lemmas: the ranker's filters and emission -/

theorem mem_costFilter {mn mx : Option ℚ} {cs : List Candidate} {c : Candidate}
    (h : c ∈ costFilter mn mx cs) : c ∈ cs := by
  unfold costFilter at h
  split at h
  · exact List.mem_of_mem_filter h
  · exact h

theorem costFilter_bounds {mn mx : Option ℚ} {cs : List Candidate} {c : Candidate}
    (h : c ∈ costFilter mn mx cs) :
    (∀ m, mn = some m → m ≤ c.cost_per_hour) ∧
      (∀ m, mx = some m → c.cost_per_hour ≤ m) := by
  unfold costFilter at h
  split at h
  · have hp := List.of_mem_filter h
    rw [Bool.and_eq_true] at hp
    obtain ⟨h1, h2⟩ := hp
    constructor
    · intro m hm
      subst hm
      simpa using h1
    · intro m hm
      subst hm
      simpa using h2
  · rename_i hnone
    constructor
    · intro m hm
      simp [hm] at hnone
    · intro m hm
      simp [hm] at hnone

theorem mem_dualFilter {a : Option Bool} {cs : List Candidate} {c : Candidate}
    (h : c ∈ dualFilter a cs) : c ∈ cs := by
  unfold dualFilter at h
  split at h
  · exact List.mem_of_mem_filter h
  · exact h

theorem gpuCandidates_sound {avail : String → Nat} {minV : Nat} {comm spot : Bool}
    {g : GPUInfo} {c : Candidate} (h : c ∈ gpuCandidates avail minV comm spot g) :
    minV ≤ c.total_vram_gb ∧ c.gpu_type_id = g.id ∧
      ((c.gpu_count = 1 ∧ c.total_vram_gb = g.memory_in_gb ∧ minV ≤ g.memory_in_gb ∧
          1 ≤ avail g.id) ∨
       (c.gpu_count = 2 ∧ c.total_vram_gb = g.memory_in_gb * 2 ∧ g.memory_in_gb < minV ∧
          minV ≤ g.memory_in_gb * 2 ∧ 2 ≤ avail g.id)) := by
  simp only [gpuCandidates] at h
  split at h
  · simp at h
  · rcases List.mem_append.mp h with h1 | h1
    · split at h1
      · rcases List.mem_singleton.mp h1 with rfl
        rename_i hc
        exact ⟨hc.1, rfl, Or.inl ⟨rfl, rfl, hc.1, hc.2⟩⟩
      · simp at h1
    · split at h1
      · rcases List.mem_singleton.mp h1 with rfl
        rename_i hc
        refine ⟨hc.2.1, rfl, Or.inr ⟨rfl, rfl, hc.1, hc.2.1, hc.2.2⟩⟩
      · simp at h1

/-- Membership in the ranked output comes from the filtered emission list. -/
theorem select_ok_mem {volume : Option NetworkVolume} {gts : List GPUInfo}
    {avail : String → Nat} {minV : Nat} {mn mx : Option ℚ} {allow : Option Bool}
    {ct : String} {spot : Bool} {l : List Candidate} {c : Candidate}
    (h : select_optimal_gpu volume gts avail minV mn mx allow ct spot = .ok l)
    (hc : c ∈ l) :
    c ∈ dualFilter allow (costFilter mn mx
      (gts.flatMap (gpuCandidates avail minV (ct == "COMMUNITY") spot))) := by
  simp only [select_optimal_gpu] at h
  split at h
  · exact absurd h (by simp)
  · rcases Except.ok.inj h with rfl
    exact (List.mem_insertionSort candLE).mp hc

/-! ## Concrete fixtures used by the witness theorems -/

def gA : GPUInfo :=
  { id := "gA", display_name := "RTX A5000", memory_in_gb := 24,
    secure_price := 22/100, community_price := none, community_spot_price := none,
    stock_status := some "High" }

def gB : GPUInfo :=
  { id := "gB", display_name := "Small", memory_in_gb := 16,
    secure_price := 1/10, community_price := none, community_spot_price := none,
    stock_status := some "Low" }

def availAB : String → Nat := fun s => if s == "gA" then 1 else 2

def volEU : NetworkVolume :=
  { id := "v", name := "vol", size := 100, data_center_id := some "EU-RO-1" }

/-- The dual-unit candidate `select_optimal_gpu` builds from `gB`. -/
def cB2 : Candidate :=
  { gpu_type_id := "gB", gpu_count := 2, cost_per_hour := 2/10, total_vram_gb := 32,
    display_name := "Small", cost_per_gb_vram := (1/10)/16, is_available := true,
    stock_status := some "Low" }

/-- The single-unit candidate `select_optimal_gpu` builds from `gA`. -/
def cA1 : Candidate :=
  { gpu_type_id := "gA", gpu_count := 1, cost_per_hour := 22/100, total_vram_gb := 24,
    display_name := "RTX A5000", cost_per_gb_vram := (22/100)/24, is_available := true,
    stock_status := some "High" }

/-! ## C1 — every ranked candidate meets the VRAM requirement -/

/-- C1: every candidate in the ranker's output has total VRAM ≥ the minimum
VRAM requirement and originates from an inventory GPU type: a single-unit
candidate only when that type's per-unit VRAM suffices and at least one unit
is available, a dual-unit candidate only when the single unit is insufficient,
the doubled VRAM suffices and at least two units are available — so dual-unit
is never emitted for a type whose single unit already satisfies the
requirement. -/
theorem ranker_vram_sound {volume : Option NetworkVolume} {gts : List GPUInfo}
    {avail : String → Nat} {minV : Nat} {mn mx : Option ℚ} {allow : Option Bool}
    {ct : String} {spot : Bool} {l : List Candidate} {c : Candidate}
    (h : select_optimal_gpu volume gts avail minV mn mx allow ct spot = .ok l)
    (hc : c ∈ l) :
    minV ≤ c.total_vram_gb ∧
      ∃ g ∈ gts, c.gpu_type_id = g.id ∧
        ((c.gpu_count = 1 ∧ c.total_vram_gb = g.memory_in_gb ∧ minV ≤ g.memory_in_gb ∧
            1 ≤ avail g.id) ∨
         (c.gpu_count = 2 ∧ c.total_vram_gb = g.memory_in_gb * 2 ∧ g.memory_in_gb < minV ∧
            minV ≤ g.memory_in_gb * 2 ∧ 2 ≤ avail g.id)) := by
  have hmem := mem_costFilter (mem_dualFilter (select_ok_mem h hc))
  rcases List.mem_flatMap.mp hmem with ⟨g, hg, hcg⟩
  rcases gpuCandidates_sound hcg with ⟨hv, hid, hcase⟩
  exact ⟨hv, g, hg, hid, hcase⟩

/-- C1 witness: a concrete two-type inventory whose ranked output contains the
dual-unit candidate `cB2`, at minimum VRAM 24. -/
theorem ranker_vram_sound_witness :
    24 ≤ cB2.total_vram_gb ∧
      ∃ g ∈ [gA, gB], cB2.gpu_type_id = g.id ∧
        ((cB2.gpu_count = 1 ∧ cB2.total_vram_gb = g.memory_in_gb ∧ 24 ≤ g.memory_in_gb ∧
            1 ≤ availAB g.id) ∨
         (cB2.gpu_count = 2 ∧ cB2.total_vram_gb = g.memory_in_gb * 2 ∧ g.memory_in_gb < 24 ∧
            24 ≤ g.memory_in_gb * 2 ∧ 2 ≤ availAB g.id)) :=
  @ranker_vram_sound none [gA, gB] availAB 24 none none none "SECURE" false
    [cB2, cA1] cB2 (by with_unfolding_all rfl) (by simp)

/-! ## C2 — the ranked output is sorted by (price asc, stock score desc) -/

/-- C2: the ranker's output is pairwise ordered by `candLE`: for any pair in
order (in particular any adjacent pair), either the price strictly increases,
or the prices are equal and the stock score (High=3, Medium=2, Low=1,
otherwise 0) does not increase. -/
theorem ranker_output_sorted {volume : Option NetworkVolume} {gts : List GPUInfo}
    {avail : String → Nat} {minV : Nat} {mn mx : Option ℚ} {allow : Option Bool}
    {ct : String} {spot : Bool} {l : List Candidate}
    (h : select_optimal_gpu volume gts avail minV mn mx allow ct spot = .ok l) :
    l.Pairwise candLE := by
  simp only [select_optimal_gpu] at h
  split at h
  · exact absurd h (by simp)
  · rcases Except.ok.inj h with rfl
    exact List.sorted_insertionSort candLE _

/-- C2 witness: the concrete ranked output `[cB2, cA1]` is pairwise ordered. -/
theorem ranker_output_sorted_witness : List.Pairwise candLE [cB2, cA1] :=
  @ranker_output_sorted none [gA, gB] availAB 24 none none none "SECURE" false
    [cB2, cA1] (by with_unfolding_all rfl)

/-! ## C8 — empty filtered set fails naming the datacenter; survivors in bounds -/

/-- The error message names the datacenter: the datacenter string occurs in it. -/
theorem noCandidateMsg_names_datacenter (d : String) :
    strContains d (noCandidateMsg d) = true := by
  have hstarts : ∀ n b : List Char, listStartsWith n (n ++ b) = true := by
    intro n
    induction n with
    | nil => intro b; rfl
    | cons a as ih =>
      intro b
      simp [listStartsWith, ih]
  have hmid : ∀ (a n b : List Char), n ≠ [] → listContains n (a ++ (n ++ b)) = true := by
    intro a
    induction a with
    | nil =>
      intro n b hn
      cases n with
      | nil => exact absurd rfl hn
      | cons x xs =>
        show listContains (x :: xs) ((x :: xs) ++ b) = true
        simp only [List.cons_append, listContains, Bool.or_eq_true]
        exact Or.inl (by simpa using hstarts (x :: xs) b)
    | cons x xs ih =>
      intro n b hn
      simp [listContains, ih n b hn]
  cases hd : d.data with
  | nil =>
    have : d = "" := by
      cases d with
      | mk data => simp at hd; simp [hd]
    subst this
    rfl
  | cons x xs =>
    show listContains d.data (noCandidateMsg d).data = true
    have hdata : (noCandidateMsg d).data =
        "No available GPU configuration found matching criteria in ".data ++
          (d.data ++ ".\nTry checking another datacenter or lowering requirements.".data) := by
      simp [noCandidateMsg, String.data_append]
    rw [hdata]
    exact hmid _ _ _ (by simp [hd])

/-- C8: when the candidate list left after emission, the inclusive cost
filters and the dual-unit filter is empty, the ranker fails with the
no-candidate error naming the datacenter (the datacenter string occurs in the
message); otherwise every surviving candidate's hourly cost lies within the
inclusive bounds that are present. -/
theorem ranker_empty_error_and_bounds {volume : Option NetworkVolume}
    {gts : List GPUInfo} {avail : String → Nat} {minV : Nat} {mn mx : Option ℚ}
    {allow : Option Bool} {ct : String} {spot : Bool} :
    (dualFilter allow (costFilter mn mx
        (gts.flatMap (gpuCandidates avail minV (ct == "COMMUNITY") spot))) = [] →
      select_optimal_gpu volume gts avail minV mn mx allow ct spot =
        .error (noCandidateMsg (datacenterOf volume)) ∧
      strContains (datacenterOf volume) (noCandidateMsg (datacenterOf volume)) = true) ∧
    (∀ l, select_optimal_gpu volume gts avail minV mn mx allow ct spot = .ok l →
      ∀ c ∈ l, (∀ m, mn = some m → m ≤ c.cost_per_hour) ∧
        (∀ m, mx = some m → c.cost_per_hour ≤ m)) := by
  constructor
  · intro hempty
    refine ⟨?_, noCandidateMsg_names_datacenter _⟩
    simp only [select_optimal_gpu]
    rw [if_pos]
    simpa using hempty
  · intro l h c hc
    exact costFilter_bounds (mem_dualFilter (select_ok_mem h hc))

/-- C8 witness: an empty inventory fails naming the datacenter, and in a
bounded query the surviving candidate `cA1` respects both bounds. -/
theorem ranker_empty_error_and_bounds_witness :
    (select_optimal_gpu (some volEU) [] availAB 24 none none none "SECURE" false =
      .error (noCandidateMsg "EU-RO-1")) ∧
    ((∀ m, (some (21/100 : ℚ)) = some m → m ≤ cA1.cost_per_hour) ∧
      (∀ m, (some (3/10 : ℚ)) = some m → cA1.cost_per_hour ≤ m)) := by
  constructor
  · have h := ((@ranker_empty_error_and_bounds (some volEU) [] availAB 24 none none
      none "SECURE" false).1 (by with_unfolding_all rfl)).1
    simpa [datacenterOf, volEU] using h
  · exact (@ranker_empty_error_and_bounds none [gA, gB] availAB 24 (some (21/100))
      (some (3/10)) none "SECURE" false).2 [cA1]
      (by with_unfolding_all rfl) cA1 (by simp)

/-! ## Attempt machine lemmas and claims C3, C4 -/

/-- Loop step: a successful create call breaks out with the pod. -/
theorem deployGo_cons_ok {outcome : Nat → Except String Pod} {cands : List Candidate}
    {a : Nat} {rest : List Nat} {cfg : Candidate} {trace : List Candidate} {p : Pod}
    (h : outcome a = .ok p) :
    deployGo outcome cands (a :: rest) cfg trace = (.ok p, trace ++ [cfg]) := by
  simp only [deployGo, h]

/-- Loop step: a transient failure below the cap with a further candidate
available advances to the next candidate. -/
theorem deployGo_cons_transient {outcome : Nat → Except String Pod}
    {cands : List Candidate} {a : Nat} {rest : List Nat} {cfg : Candidate}
    {trace : List Candidate} {m : String} (h : outcome a = .error m)
    (ht : isTransientError m = true) (ha : a < maxAttempts - 1)
    (hl : a + 1 < cands.length) :
    deployGo outcome cands (a :: rest) cfg trace =
      deployGo outcome cands rest (cands.getD (a + 1) cfg) (trace ++ [cfg]) := by
  simp only [deployGo, h]
  rw [if_pos ⟨ha, ht, hl⟩]

/-- Loop step: any other failure re-raises at once. -/
theorem deployGo_cons_raise {outcome : Nat → Except String Pod}
    {cands : List Candidate} {a : Nat} {rest : List Nat} {cfg : Candidate}
    {trace : List Candidate} {m : String} (h : outcome a = .error m)
    (hno : ¬(a < maxAttempts - 1 ∧ isTransientError m = true ∧ a + 1 < cands.length)) :
    deployGo outcome cands (a :: rest) cfg trace = (.error m, trace ++ [cfg]) := by
  simp only [deployGo, h]
  rw [if_neg hno]

/-- If the attempt loop performed an invocation after attempt `i`, then attempt
`i` failed with a transient error and the next index was below both the
attempt cap and the candidate count (necessity of the advancement guard). -/
theorem deployGo_advance_necessary (outcome : Nat → Except String Pod)
    (cands : List Candidate) :
    ∀ (n k : Nat) (cfg : Candidate) (trace : List Candidate) (i : Nat),
      trace.length = k → k ≤ i →
      i + 1 < (deployGo outcome cands (List.range' k n) cfg trace).2.length →
      ∃ m, outcome i = .error m ∧ isTransientError m = true ∧
        i + 1 < maxAttempts ∧ i + 1 < cands.length := by
  intro n
  induction n with
  | zero =>
    intro k cfg trace i hlen hki hlt
    simp only [List.range', deployGo] at hlt
    omega
  | succ n ih =>
    intro k cfg trace i hlen hki hlt
    have hr : List.range' k (n + 1) = k :: List.range' (k + 1) n := by
      simp [List.range']
    rw [hr] at hlt
    rcases ho : outcome k with m | pod
    · by_cases hg : k < maxAttempts - 1 ∧ isTransientError m = true ∧ k + 1 < cands.length
      · rw [deployGo_cons_transient ho hg.2.1 hg.1 hg.2.2] at hlt
        rcases Nat.lt_or_ge i (k + 1) with hik | hik
        · have hik2 : i = k := by omega
          subst hik2
          exact ⟨m, ho, hg.2.1, by omega, hg.2.2⟩
        · exact ih (k + 1) (cands.getD (k + 1) cfg) (trace ++ [cfg]) i
            (by simp [hlen]) hik hlt
      · rw [deployGo_cons_raise ho hg] at hlt
        simp at hlt
        omega
    · rw [deployGo_cons_ok ho] at hlt
      simp at hlt
      omega

/-- C3: with at least three ranked candidates, if the first two create calls
fail transiently (provider reports no remaining instances or a 500) and the
third succeeds, the loop succeeds with the third candidate after exactly three
deploy invocations `[c1, c2, c3]`; and in any run, an invocation after attempt
`i` happens only when attempt `i` failed transiently and `i+1` is below both
the attempt cap and the candidate count. -/
theorem attempt_machine_third_succeeds (c1 c2 c3 : Candidate) (rest : List Candidate)
    (p : Pod) (m1 m2 : String) (outcome : Nat → Except String Pod)
    (h1 : isTransientError m1 = true) (h2 : isTransientError m2 = true)
    (o0 : outcome 0 = .error m1) (o1 : outcome 1 = .error m2) (o2 : outcome 2 = .ok p) :
    deployNewPod outcome (c1 :: c2 :: c3 :: rest) c1 = (.ok p, [c1, c2, c3]) ∧
    (∀ (outcome2 : Nat → Except String Pod) (cands : List Candidate)
        (cfg0 : Candidate) (i : Nat),
      i + 1 < (deployNewPod outcome2 cands cfg0).2.length →
      ∃ m, outcome2 i = .error m ∧ isTransientError m = true ∧
        i + 1 < maxAttempts ∧ i + 1 < cands.length) := by
  constructor
  · show deployGo outcome (c1 :: c2 :: c3 :: rest) [0, 1, 2] c1 [] = _
    rw [deployGo_cons_transient o0 h1 (by decide) (by simp)]
    rw [deployGo_cons_transient o1 h2 (by decide) (by simp)]
    rw [deployGo_cons_ok o2]
    simp
  · intro outcome2 cands cfg0 i hlt
    unfold deployNewPod at hlt
    rw [List.range_eq_range'] at hlt
    exact deployGo_advance_necessary outcome2 cands maxAttempts 0 cfg0 [] i rfl
      (Nat.zero_le i) hlt

def podOK : Pod :=
  { id := "pod-1", name := "pod-20250101-120000", status := "RUNNING",
    public_ip := some "1.2.3.4", port_mappings := [("22", 10022)] }

def msgNoInstances : String :=
  "There are no longer any instances available with the requested specifications."

def msg500 : String := "API request failed with status 500: internal error"

def msgFatal : String := "quota exceeded for this account"

def outcome3 : Nat → Except String Pod := fun i =>
  if i = 0 then .error msgNoInstances
  else if i = 1 then .error msg500
  else .ok podOK

/-- C3 witness: a concrete run where attempts 0 and 1 fail transiently and
attempt 2 succeeds with the third candidate. -/
theorem attempt_machine_third_succeeds_witness :
    isTransientError msgNoInstances = true ∧ isTransientError msg500 = true ∧
    deployNewPod outcome3 [cB2, cA1, cB2] cB2 = (.ok podOK, [cB2, cA1, cB2]) := by
  refine ⟨by decide, by decide, ?_⟩
  exact (attempt_machine_third_succeeds cB2 cA1 cB2 [] podOK msgNoInstances msg500
    outcome3 (by decide) (by decide) rfl rfl rfl).1

/-- C4: a non-transient (fatal) failure of the create call on the first
candidate aborts the loop at once, re-raising that error: `deploy_pod` is
invoked exactly once (trace `[cfg0]`), never on a second candidate, regardless
of how many candidates and attempts remain. -/
theorem attempt_machine_fatal_aborts (cands : List Candidate) (cfg0 : Candidate)
    (m : String) (outcome : Nat → Except String Pod)
    (hm : isTransientError m = false) (o0 : outcome 0 = .error m) :
    deployNewPod outcome cands cfg0 = (.error m, [cfg0]) := by
  show deployGo outcome cands [0, 1, 2] cfg0 [] = _
  rw [deployGo_cons_raise o0 (by simp [hm])]
  rfl

/-- C4 witness: a fatal quota error on the first candidate aborts with a
single invocation even though two more candidates are ranked. -/
theorem attempt_machine_fatal_aborts_witness :
    isTransientError msgFatal = false ∧
    deployNewPod (fun _ => .error msgFatal) [cB2, cA1, cB2] cB2 =
      (.error msgFatal, [cB2]) :=
  ⟨by decide, attempt_machine_fatal_aborts [cB2, cA1, cB2] cB2 msgFatal
    (fun _ => .error msgFatal) (by decide) rfl⟩

/-! ## Poller lemmas and claims C5, C6, C10 -/

/-- Any snapshot the poller returns as ready satisfies the full readiness
condition and is one of the fetched snapshots. -/
theorem waitForRunning_ready_sound {snaps : Nat → Pod} {fetchDur : Nat → Nat}
    {timeout : Option Nat} :
    ∀ (fuel i e : Nat) (p : Pod) (n : Nat),
      waitForRunning snaps fetchDur timeout fuel i e = some (.ready p, n) →
      podReady p = true ∧ ∃ j, p = snaps j := by
  intro fuel
  induction fuel with
  | zero => intro i e p n h; simp [waitForRunning] at h
  | succ fuel ih =>
    intro i e p n h
    simp only [waitForRunning] at h
    split at h
    · simp at h
    · split at h
      · rename_i hready
        rcases Option.some.inj h with hpair
        have hp : PollResult.ready (snaps i) = PollResult.ready p := congrArg Prod.fst hpair
        rcases PollResult.ready.inj hp with rfl
        exact ⟨hready, i, rfl⟩
      · split at h
        · simp at h
        · exact ih (i + 1) (e + fetchDur i + checkInterval) p n h

/-- One unfolding of the poll loop. -/
theorem waitForRunning_succ (snaps : Nat → Pod) (fetchDur : Nat → Nat)
    (timeout : Option Nat) (fuel i e : Nat) :
    waitForRunning snaps fetchDur timeout (fuel + 1) i e =
      (if timeoutFires timeout e then some (.timeout (timeout.getD 0), i)
       else if podReady (snaps i) then some (.ready (snaps i), i + 1)
       else if podTerminal (snaps i) then some (.terminal (snaps i).status, i + 1)
       else waitForRunning snaps fetchDur timeout fuel (i + 1)
         (e + fetchDur i + checkInterval)) := rfl

theorem waitForRunning_zero (snaps : Nat → Pod) (fetchDur : Nat → Nat)
    (timeout : Option Nat) (i e : Nat) :
    waitForRunning snaps fetchDur timeout 0 i e = none := rfl

/-- If the first `i` snapshots are neither ready nor terminal and there is no
timeout, the poller's outcome at the `(i+1)`-th fetch is decided exactly by
the classification of snapshot `k + i`: ready succeeds with that snapshot,
terminal fails fatally with its status, otherwise the loop is still running. -/
theorem waitForRunning_first_hit {snaps : Nat → Pod} {fetchDur : Nat → Nat} :
    ∀ (i k e : Nat),
      (∀ j, j < i → podReady (snaps (k + j)) = false ∧ podTerminal (snaps (k + j)) = false) →
      waitForRunning snaps fetchDur none (i + 1) k e =
        (if podReady (snaps (k + i)) then some (.ready (snaps (k + i)), k + i + 1)
         else if podTerminal (snaps (k + i)) then
           some (.terminal (snaps (k + i)).status, k + i + 1)
         else none) := by
  intro i
  induction i with
  | zero =>
    intro k e hprev
    rw [waitForRunning_succ, if_neg (by simp [timeoutFires]), waitForRunning_zero]
    simp only [Nat.add_zero]
  | succ i ih =>
    intro k e hprev
    have h0 := hprev 0 (Nat.succ_pos i)
    simp only [Nat.add_zero] at h0
    rw [waitForRunning_succ, if_neg (by simp [timeoutFires]),
      if_neg (by simp [h0.1]), if_neg (by simp [h0.2])]
    have hshift : ∀ j, j < i →
        podReady (snaps (k + 1 + j)) = false ∧ podTerminal (snaps (k + 1 + j)) = false := by
      intro j hj
      have hh := hprev (j + 1) (by omega)
      constructor
      · rw [show k + 1 + j = k + (j + 1) by omega]
        exact hh.1
      · rw [show k + 1 + j = k + (j + 1) by omega]
        exact hh.2
    have hrec := ih (k + 1) (e + fetchDur k + checkInterval) hshift
    rw [show k + 1 + i = k + (i + 1) by omega] at hrec
    rw [hrec]

/-- The "provisioning" snapshot of the C5 test vector. -/
def sProv : Pod :=
  { id := "p", name := "pod", status := "PROVISIONING", public_ip := none,
    port_mappings := [] }

/-- RUNNING without a public address. -/
def sNoIp : Pod :=
  { id := "p", name := "pod", status := "RUNNING", public_ip := none,
    port_mappings := [] }

/-- RUNNING with an address but no port-22 mapping. -/
def sNoSsh : Pod :=
  { id := "p", name := "pod", status := "RUNNING", public_ip := some "1.2.3.4",
    port_mappings := [("8080", 30080)] }

/-- RUNNING with an address and a port-22 mapping. -/
def sReady : Pod :=
  { id := "p", name := "pod", status := "RUNNING", public_ip := some "1.2.3.4",
    port_mappings := [("8080", 30080), ("22", 10022)] }

/-- A terminated snapshot. -/
def sTerm : Pod :=
  { id := "p", name := "pod", status := "TERMINATED", public_ip := none,
    port_mappings := [] }

/-- The C5 snapshot sequence: provisioning, running without address, running
with address but no port-22 mapping, then fully addressable. -/
def seqC5 : Nat → Pod
  | 0 => sProv
  | 1 => sNoIp
  | 2 => sNoSsh
  | _ => sReady

/-- C5: (1) the poller returns success only with a fetched snapshot whose
status is RUNNING, whose public address is present and non-empty, and whose
port table maps remote port 22; (2) on the snapshot sequence
[provisioning, running-no-address, running-no-port-22, running-ready] it
succeeds exactly at the 4th fetch (after 3 fetches it is still polling);
(3) a TERMINATED or EXITED snapshot, reached after any number of
non-ready non-terminal snapshots, fails immediately with an error naming that
terminal status. -/
theorem poller_readiness_classification :
    (∀ (snaps : Nat → Pod) (fetchDur : Nat → Nat) (timeout : Option Nat)
        (fuel i e : Nat) (p : Pod) (n : Nat),
      waitForRunning snaps fetchDur timeout fuel i e = some (.ready p, n) →
      (p.status = "RUNNING" ∧ (∃ ip, p.public_ip = some ip ∧ ip ≠ "") ∧
        (∃ kv ∈ p.port_mappings, kv.1 = "22")) ∧ ∃ j, p = snaps j) ∧
    (∀ fetchDur : Nat → Nat,
      waitForRunningFrom seqC5 fetchDur none 4 = some (.ready sReady, 4) ∧
      waitForRunningFrom seqC5 fetchDur none 3 = none) ∧
    (∀ (snaps : Nat → Pod) (fetchDur : Nat → Nat) (i : Nat),
      (∀ j, j < i → podReady (snaps j) = false ∧ podTerminal (snaps j) = false) →
      podTerminal (snaps i) = true →
      waitForRunningFrom snaps fetchDur none (i + 1) =
        some (.terminal (snaps i).status, i + 1)) := by
  refine ⟨?_, ?_, ?_⟩
  · intro snaps fetchDur timeout fuel i e p n h
    rcases waitForRunning_ready_sound fuel i e p n h with ⟨hr, hj⟩
    refine ⟨?_, hj⟩
    have hb := hr
    simp only [podReady, podHasIp, podHasPort, Bool.and_eq_true] at hb
    obtain ⟨⟨hst, hip⟩, hmap, hport⟩ := hb
    refine ⟨by simpa using hst, ?_, ?_⟩
    · rcases hp : p.public_ip with _ | ip
      · rw [hp] at hip; simp at hip
      · rw [hp] at hip
        exact ⟨ip, rfl, by simpa using hip⟩
    · rcases List.any_eq_true.mp hport with ⟨kv, hkv, hkey⟩
      exact ⟨kv, hkv, by simpa using hkey⟩
  · intro fetchDur
    constructor
    · have h := @waitForRunning_first_hit seqC5 fetchDur 3 0 0 (by decide)
      simpa using h
    · have h := @waitForRunning_first_hit seqC5 fetchDur 2 0 0 (by decide)
      simpa using h
  · intro snaps fetchDur i hprev hterm
    have h := @waitForRunning_first_hit snaps fetchDur i 0 0 (by simpa using hprev)
    have hnr : podReady (snaps i) = false := by
      rcases hb : podReady (snaps i) with _ | _
      · rfl
      · exfalso
        have hx := hterm
        simp only [podReady, podTerminal, Bool.and_eq_true, Bool.or_eq_true] at hb hx
        rcases hx with hx | hx <;> rw [beq_iff_eq] at hx <;>
          rcases hb with ⟨⟨hst, _⟩, _⟩ <;> rw [beq_iff_eq] at hst <;>
          simp [hx] at hst
    unfold waitForRunningFrom
    simp only [Nat.zero_add] at h
    rw [h, if_neg (by simp [hnr]), if_pos (by simp [hterm])]

/-- C5 witness: the 4-snapshot vector succeeds exactly at the 4th fetch with
the ready snapshot (which satisfies the spelled-out readiness condition), and
an immediately terminated pod fails at once naming the status. -/
theorem poller_readiness_classification_witness :
    (waitForRunningFrom seqC5 (fun _ => 1) none 4 = some (.ready sReady, 4) ∧
      waitForRunningFrom seqC5 (fun _ => 1) none 3 = none) ∧
    (sReady.status = "RUNNING" ∧ (∃ ip, sReady.public_ip = some ip ∧ ip ≠ "") ∧
      (∃ kv ∈ sReady.port_mappings, kv.1 = "22")) ∧
    waitForRunningFrom (fun _ => sTerm) (fun _ => 1) none 1 =
      some (.terminal "TERMINATED", 1) := by
  refine ⟨poller_readiness_classification.2.1 (fun _ => 1), ?_, ?_⟩
  · exact (poller_readiness_classification.1 seqC5 (fun _ => 1) none 4 0 0 sReady 4
      (poller_readiness_classification.2.1 (fun _ => 1)).1).1
  · exact poller_readiness_classification.2.2 (fun _ => sTerm) (fun _ => 1) 0
      (fun j hj => absurd hj (Nat.not_lt_zero j)) (by decide)

/-! ## C6 — timeout 10 with interval 5 fires within two polls -/

/-- C6: with timeout 10 and poll interval 5, when no snapshot is ever ready
(nor terminal) and every fetch takes positive time, the poller raises the
timeout error after at most two status fetches — the third fetch never
happens. -/
theorem poller_timeout_within_two_polls (snaps : Nat → Pod) (fetchDur : Nat → Nat)
    (hready : ∀ i, podReady (snaps i) = false)
    (hterm : ∀ i, podTerminal (snaps i) = false)
    (hdur : ∀ i, 0 < fetchDur i) :
    ∃ n, waitForRunningFrom snaps fetchDur (some 10) 3 = some (.timeout 10, n) ∧
      n ≤ 2 := by
  have d0 := hdur 0
  have d1 := hdur 1
  unfold waitForRunningFrom
  rw [waitForRunning_succ, if_neg (by simp [timeoutFires]),
    if_neg (by simp [hready 0]), if_neg (by simp [hterm 0])]
  by_cases hc : timeoutFires (some 10) (0 + fetchDur 0 + checkInterval) = true
  · rw [waitForRunning_succ, if_pos hc]
    exact ⟨1, rfl, by omega⟩
  · rw [waitForRunning_succ, if_neg hc, if_neg (by simp [hready 1]),
      if_neg (by simp [hterm 1])]
    rw [waitForRunning_succ,
      if_pos (show timeoutFires (some 10)
          (0 + fetchDur 0 + checkInterval + fetchDur 1 + checkInterval) = true by
        simp [timeoutFires, checkInterval]
        omega)]
    exact ⟨2, rfl, by omega⟩

/-- C6 witness: a stream of provisioning snapshots with 1-second fetches times
out within two polls. -/
theorem poller_timeout_within_two_polls_witness :
    ∃ n, waitForRunningFrom (fun _ => sProv) (fun _ => 1) (some 10) 3 =
      some (.timeout 10, n) ∧ n ≤ 2 :=
  poller_timeout_within_two_polls (fun _ => sProv) (fun _ => 1)
    (fun _ => rfl) (fun _ => rfl) (fun _ => Nat.one_pos)

/-! ## C10 — timeout 0 behaves exactly like no timeout -/

/-- C10: the guard `if timeout and ...` treats `timeout=0` as falsy, so a run
with timeout 0 is identical to a run with no timeout at all and can never
produce a timeout result — the poller keeps polling until ready or terminal. -/
theorem poller_zero_timeout (snaps : Nat → Pod) (fetchDur : Nat → Nat) :
    ∀ (fuel i e : Nat),
      waitForRunning snaps fetchDur (some 0) fuel i e =
        waitForRunning snaps fetchDur none fuel i e ∧
      (∀ r n, waitForRunning snaps fetchDur (some 0) fuel i e = some (r, n) →
        ∀ t, r ≠ PollResult.timeout t) := by
  intro fuel
  induction fuel with
  | zero =>
    intro i e
    refine ⟨rfl, ?_⟩
    intro r n h t
    rw [waitForRunning_zero] at h
    simp at h
  | succ fuel ih =>
    intro i e
    constructor
    · rw [waitForRunning_succ, waitForRunning_succ,
        show timeoutFires (some 0) e = false from rfl,
        show timeoutFires none e = false from rfl,
        (ih (i + 1) (e + fetchDur i + checkInterval)).1]
      simp
    · intro r n h t
      rw [waitForRunning_succ,
        show timeoutFires (some 0) e = false from rfl] at h
      simp only [Bool.false_eq_true, if_false] at h
      split at h
      · simp only [Option.some.injEq, Prod.mk.injEq] at h
        rw [← h.1]
        simp
      · split at h
        · simp only [Option.some.injEq, Prod.mk.injEq] at h
          rw [← h.1]
          simp
        · exact (ih (i + 1) (e + fetchDur i + checkInterval)).2 r n h t

/-- C10 witness: with timeout 0 a ready pod is returned exactly as with no
timeout, and the returned result is not a timeout. -/
theorem poller_zero_timeout_witness :
    (waitForRunning (fun _ => sReady) (fun _ => 1) (some 0) 1 0 0 =
      waitForRunning (fun _ => sReady) (fun _ => 1) none 1 0 0) ∧
    PollResult.ready sReady ≠ PollResult.timeout 0 :=
  ⟨(poller_zero_timeout (fun _ => sReady) (fun _ => 1) 1 0 0).1,
   (poller_zero_timeout (fun _ => sReady) (fun _ => 1) 1 0 0).2
     (PollResult.ready sReady) 1 rfl 0⟩

/-! ## C7 — wide-then-loopback fallback; zero-or-one live session -/

/-- The process-registry invariant of the bind-address loop: started on an
empty registry, it ends with exactly one handle on success and an empty
registry on failure, and its first event is the launch for the first bind
address. -/
theorem startTunnelsGo_invariant (useKey : Bool) (behave : String → LaunchBehavior)
    (lip : String) :
    ∀ (binds : List String) (events : List TEvent),
      (((startTunnelsGo useKey behave lip binds [] events).1.success = true →
          (startTunnelsGo useKey behave lip binds [] events).2.1.length = 1) ∧
        ((startTunnelsGo useKey behave lip binds [] events).1.success = false →
          (startTunnelsGo useKey behave lip binds [] events).2.1 = [])) := by
  intro binds
  induction binds with
  | nil =>
    intro events
    exact ⟨fun h => by simp [startTunnelsGo] at h, fun _ => rfl⟩
  | cons bind rest ih =>
    intro events
    simp only [startTunnelsGo]
    split
    · exact ih _
    · split
      · exact ih _
      · exact ⟨fun _ => rfl, fun h => by simp at h⟩

/-- C7: the wide bind (0.0.0.0) is attempted before the loopback bind
(127.0.0.1); when the wide-bind transport process spawns but is dead
afterwards, `stop_all` cleanup runs before the loopback launch, and on
loopback success the run reports the localhost-only message with exactly the
one loopback handle registered and the trace
[launch wide, cleanup, launch loopback, success loopback]; in general, after
`start_tunnels` returns, the registry holds exactly one handle on success and
none on failure. -/
theorem tunnels_wide_then_loopback_fallback (useKey : Bool) (env : ProbeEnv)
    (behave : String → LaunchBehavior) (lip : String)
    (henv : detect_local_ip env = .ok lip)
    (hwspawn : (behave "0.0.0.0").spawnFails = false)
    (hwdead : (behave "0.0.0.0").aliveAfterSettle = false)
    (hlspawn : (behave "127.0.0.1").spawnFails = false)
    (hlcheck : (behave "127.0.0.1").aliveAfterSpawnCheck = true)
    (hlalive : (behave "127.0.0.1").aliveAfterSettle = true) :
    start_tunnels useKey env behave =
      .ok ({ success := true, message := successMsgLoopback, local_ip := lip },
        ["127.0.0.1"],
        [.launch "0.0.0.0", .cleanup, .launch "127.0.0.1", .success "127.0.0.1"]) ∧
    (∀ (useKey2 : Bool) (env2 : ProbeEnv) (behave2 : String → LaunchBehavior)
        (res : TunnelResult) (procs : List String) (events : List TEvent),
      start_tunnels useKey2 env2 behave2 = .ok (res, procs, events) →
      (res.success = true → procs.length = 1) ∧ (res.success = false → procs = [])) := by
  constructor
  · have hrun : start_tunnels useKey env behave =
        .ok (startTunnelsGo useKey behave lip bindAddrs [] []) := by
      unfold start_tunnels
      rw [henv]
    rw [hrun]
    simp only [bindAddrs, startTunnelsGo, launchTunnel, hwspawn]
    cases hk : useKey && !(behave "0.0.0.0").aliveAfterSpawnCheck with
    | false =>
      simp only [hk, Bool.false_eq_true, if_false, hwdead, Bool.not_false, if_true]
      simp [hlspawn, hlcheck, hlalive]
    | true =>
      simp only [hk, if_true]
      simp [hlspawn, hlcheck, hlalive]
  · intro useKey2 env2 behave2 res procs events h
    unfold start_tunnels at h
    rcases henv2 : detect_local_ip env2 with e | lip2
    · rw [henv2] at h
      simp at h
    · rw [henv2] at h
      rcases Except.ok.inj h with hpair
      have hinv := startTunnelsGo_invariant useKey2 behave2 lip2 bindAddrs []
      rw [hpair] at hinv
      exact hinv

def behaveC7 : String → LaunchBehavior := fun b =>
  if b == "0.0.0.0" then
    { spawnFails := false, aliveAfterSpawnCheck := true, aliveAfterSettle := false }
  else
    { spawnFails := false, aliveAfterSpawnCheck := true, aliveAfterSettle := true }

/-- C7 witness: a concrete run (key auth, no probing library) where the wide
bind's process dies and the loopback bind succeeds. -/
theorem tunnels_wide_then_loopback_fallback_witness :
    start_tunnels true ProbeEnv.importError behaveC7 =
      .ok ({ success := true, message := successMsgLoopback, local_ip := "localhost" },
        ["127.0.0.1"],
        [.launch "0.0.0.0", .cleanup, .launch "127.0.0.1", .success "127.0.0.1"]) :=
  (tunnels_wide_then_loopback_fallback true ProbeEnv.importError behaveC7 "localhost"
    rfl rfl rfl rfl rfl rfl).1

/-! ## C9 — local-IP detection: corrected -/

/-- C9 counterexample: the probing `try` block catches only `ImportError`
(src/ssh_tunnel.py line 79), so an environment in which probing raises any
other exception (e.g. `ValueError` from `netifaces.ifaddresses` on a vanished
interface) makes `detect_local_ip` propagate the exception instead of
returning an address string — refuting the claim for that environment. -/
theorem detect_local_ip_raise_counterexample :
    detect_local_ip (ProbeEnv.raisesOther "ValueError: you must specify a valid interface name") =
      .error "ValueError: you must specify a valid interface name" := rfl

/-- C9 amended: `detect_local_ip` never fails when the probing library is
unavailable (ImportError) — it returns the loopback placeholder — and never
fails on any successful probe, returning some address string, in particular
the loopback placeholder when no usable candidate address is found; only an
exception other than `ImportError` raised during probing propagates. -/
theorem detect_local_ip_fallback :
    detect_local_ip ProbeEnv.importError = .ok "localhost" ∧
    (∀ ifaces, ∃ s, detect_local_ip (ProbeEnv.ok ifaces) = .ok s) ∧
    (∀ ifaces, probeCandidates ifaces = [] →
      detect_local_ip (ProbeEnv.ok ifaces) = .ok "localhost") := by
  refine ⟨rfl, ?_, ?_⟩
  · intro ifaces
    simp only [detect_local_ip]
    split
    · rename_i c cs hc
      exact ⟨c.1, rfl⟩
    · exact ⟨"localhost", rfl⟩
  · intro ifaces hempty
    simp only [detect_local_ip, hempty]
    rfl

/-- C9 amended-claim witness: a host whose only interface is loopback-skipped
yields the fallback address. -/
theorem detect_local_ip_fallback_witness :
    detect_local_ip (ProbeEnv.ok [("lo", ["127.0.0.1"])]) = .ok "localhost" :=
  detect_local_ip_fallback.2.2 [("lo", ["127.0.0.1"])] rfl

end Runpod
